import Mathlib

/-!
Verification of `orangecanvas/scheme/events.py` (workflow event classes).

The module defines a registry of event kinds on the base class
`WorkflowEvent` (class attributes initialised by successive calls to
`QEvent.registerEventType()`), and four carrier classes: `NodeEvent`,
`LinkEvent`, `AnnotationEvent` and `WorkflowEnvChanged`.  Each carrier
stores its constructor arguments in private attributes and exposes
read-only accessor methods.

The embedding below mirrors the source: event kinds are `Int` values
allocated by a state-threaded model of `QEvent.registerEventType`, the
carrier classes are structures whose `make` functions perform exactly the
field assignments of the Python `__init__` bodies, and each accessor
method is additionally modelled as an explicit state transformer
(value, post-state) so that frame properties can be stated.
-/

/-- Model of `QEvent.registerEventType()` called with no hint: Qt allocates
fresh user event ids counting down from `QEvent.MaxUser = 65535`.  The
state is the number of registrations performed so far in the process; each
call returns a fresh id and the advanced state. -/
def registerEventType (s : Nat) : Int × Nat :=
  ((65535 : Int) - (s : Int), s + 1)

/-- Registry state before the `WorkflowEvent` class body executes. -/
def regState0 : Nat := 0

def WorkflowEvent.NodeAdded : Int := (registerEventType regState0).fst

def regState1 : Nat := (registerEventType regState0).snd

def WorkflowEvent.NodeRemoved : Int := (registerEventType regState1).fst

def regState2 : Nat := (registerEventType regState1).snd

def WorkflowEvent.LinkAdded : Int := (registerEventType regState2).fst

def regState3 : Nat := (registerEventType regState2).snd

def WorkflowEvent.LinkRemoved : Int := (registerEventType regState3).fst

def regState4 : Nat := (registerEventType regState3).snd

def WorkflowEvent.InputLinkAdded : Int := (registerEventType regState4).fst

def regState5 : Nat := (registerEventType regState4).snd

def WorkflowEvent.OutputLinkAdded : Int := (registerEventType regState5).fst

def regState6 : Nat := (registerEventType regState5).snd

def WorkflowEvent.InputLinkRemoved : Int := (registerEventType regState6).fst

def regState7 : Nat := (registerEventType regState6).snd

def WorkflowEvent.OutputLinkRemoved : Int := (registerEventType regState7).fst

def regState8 : Nat := (registerEventType regState7).snd

def WorkflowEvent.NodeStateChange : Int := (registerEventType regState8).fst

def regState9 : Nat := (registerEventType regState8).snd

def WorkflowEvent.LinkStateChange : Int := (registerEventType regState9).fst

def regState10 : Nat := (registerEventType regState9).snd

def WorkflowEvent.InputLinkStateChange : Int := (registerEventType regState10).fst

def regState11 : Nat := (registerEventType regState10).snd

def WorkflowEvent.OutputLinkStateChange : Int := (registerEventType regState11).fst

def regState12 : Nat := (registerEventType regState11).snd

def WorkflowEvent.NodeInitialize : Int := (registerEventType regState12).fst

def regState13 : Nat := (registerEventType regState12).snd

def WorkflowEvent.NodeRestore : Int := (registerEventType regState13).fst

def regState14 : Nat := (registerEventType regState13).snd

def WorkflowEvent.NodeSaveStateRequest : Int := (registerEventType regState14).fst

def regState15 : Nat := (registerEventType regState14).snd

def WorkflowEvent.NodeActivateRequest : Int := (registerEventType regState15).fst

def regState16 : Nat := (registerEventType regState15).snd

def WorkflowEvent.RuntimeStateChange : Int := (registerEventType regState16).fst

def regState17 : Nat := (registerEventType regState16).snd

def WorkflowEvent.WorkflowEnvironmentChange : Int := (registerEventType regState17).fst

def regState18 : Nat := (registerEventType regState17).snd

/-- Source line 80: `WorkflowResourceChange = WorkflowEnvironmentChange` is a
plain alias assignment, not a new registration; the registry state is not
advanced. -/
def WorkflowEvent.WorkflowResourceChange : Int := WorkflowEvent.WorkflowEnvironmentChange

def WorkflowEvent.WorkflowAboutToClose : Int := (registerEventType regState18).fst

def regState19 : Nat := (registerEventType regState18).snd

def WorkflowEvent.WorkflowClose : Int := (registerEventType regState19).fst

def regState20 : Nat := (registerEventType regState19).snd

def WorkflowEvent.AnnotationAdded : Int := (registerEventType regState20).fst

def regState21 : Nat := (registerEventType regState20).snd

def WorkflowEvent.AnnotationRemoved : Int := (registerEventType regState21).fst

def regState22 : Nat := (registerEventType regState21).snd

def WorkflowEvent.AnnotationChange : Int := (registerEventType regState22).fst

def regState23 : Nat := (registerEventType regState22).snd

def WorkflowEvent.ActivateParentRequest : Int := (registerEventType regState23).fst

/-- Registry state after the whole `WorkflowEvent` class body has run. -/
def regStateFinal : Nat := (registerEventType regState23).snd

/-- The class-level kind attributes of `WorkflowEvent`, in source order.
There are 25 names; `WorkflowResourceChange` (position 19) is the alias. -/
def namedKindValues : List Int :=
  [WorkflowEvent.NodeAdded, WorkflowEvent.NodeRemoved,
   WorkflowEvent.LinkAdded, WorkflowEvent.LinkRemoved,
   WorkflowEvent.InputLinkAdded, WorkflowEvent.OutputLinkAdded,
   WorkflowEvent.InputLinkRemoved, WorkflowEvent.OutputLinkRemoved,
   WorkflowEvent.NodeStateChange, WorkflowEvent.LinkStateChange,
   WorkflowEvent.InputLinkStateChange, WorkflowEvent.OutputLinkStateChange,
   WorkflowEvent.NodeInitialize, WorkflowEvent.NodeRestore,
   WorkflowEvent.NodeSaveStateRequest, WorkflowEvent.NodeActivateRequest,
   WorkflowEvent.RuntimeStateChange, WorkflowEvent.WorkflowEnvironmentChange,
   WorkflowEvent.WorkflowResourceChange, WorkflowEvent.WorkflowAboutToClose,
   WorkflowEvent.WorkflowClose, WorkflowEvent.AnnotationAdded,
   WorkflowEvent.AnnotationRemoved, WorkflowEvent.AnnotationChange,
   WorkflowEvent.ActivateParentRequest]

/-- The kinds actually registered by the class body (24 calls to
`registerEventType`): the attribute list without the alias. -/
def registeredKindValues : List Int :=
  [WorkflowEvent.NodeAdded, WorkflowEvent.NodeRemoved,
   WorkflowEvent.LinkAdded, WorkflowEvent.LinkRemoved,
   WorkflowEvent.InputLinkAdded, WorkflowEvent.OutputLinkAdded,
   WorkflowEvent.InputLinkRemoved, WorkflowEvent.OutputLinkRemoved,
   WorkflowEvent.NodeStateChange, WorkflowEvent.LinkStateChange,
   WorkflowEvent.InputLinkStateChange, WorkflowEvent.OutputLinkStateChange,
   WorkflowEvent.NodeInitialize, WorkflowEvent.NodeRestore,
   WorkflowEvent.NodeSaveStateRequest, WorkflowEvent.NodeActivateRequest,
   WorkflowEvent.RuntimeStateChange, WorkflowEvent.WorkflowEnvironmentChange,
   WorkflowEvent.WorkflowAboutToClose,
   WorkflowEvent.WorkflowClose, WorkflowEvent.AnnotationAdded,
   WorkflowEvent.AnnotationRemoved, WorkflowEvent.AnnotationChange,
   WorkflowEvent.ActivateParentRequest]

/-- Opaque reference to a workflow node (`SchemeNode`); events hold the
reference itself, so reference identity is modelled by equality of ids. -/
structure SchemeNode where
  ref : Nat
deriving DecidableEq

/-- Opaque reference to a workflow link (`SchemeLink`). -/
structure SchemeLink where
  ref : Nat
deriving DecidableEq

/-- Opaque reference to a workflow annotation ( `BaseSchemeAnnotation`). -/
structure BaseSchemeAnnotation where
  ref : Nat
deriving DecidableEq

/-- Untyped (`Any`) payload values carried by `WorkflowEnvChanged`:
old and new values may be of unrelated runtime types. -/
inductive Value where
  | str (s : String) : Value
  | int (i : Int) : Value
  | vNone : Value
deriving DecidableEq

/-- `NodeEvent`: stores the etype (via `super().__init__`), the node and
the position, exactly as the `__init__` body assigns them. -/
structure NodeEvent where
  etype : Int
  node : SchemeNode
  pos : Int

/-- `NodeEvent.__init__(etype, node, pos)` with an explicit position. -/
def NodeEvent.make (etype : Int) (node : SchemeNode) (pos : Int) : NodeEvent :=
  ⟨etype, node, pos⟩

/-- `NodeEvent(etype, node)` with the position argument omitted: the Python
default parameter `pos=-1` applies. -/
def NodeEvent.makeDefault (etype : Int) (node : SchemeNode) : NodeEvent :=
  NodeEvent.make etype node (-1)

/-- `LinkEvent`: etype, link and position, as assigned by `__init__`. -/
structure LinkEvent where
  etype : Int
  link : SchemeLink
  pos : Int

/-- `LinkEvent.__init__(etype, link, pos)` with an explicit position. -/
def LinkEvent.make (etype : Int) (link : SchemeLink) (pos : Int) : LinkEvent :=
  ⟨etype, link, pos⟩

/-- `LinkEvent(etype, link)` with the position omitted (default `pos=-1`). -/
def LinkEvent.makeDefault (etype : Int) (link : SchemeLink) : LinkEvent :=
  LinkEvent.make etype link (-1)

/-- `AnnotationEvent`: etype, annotation and position, as assigned by
its `__init__`. -/
structure AnnotationEvent where
  etype : Int
  annotation : BaseSchemeAnnotation
  pos : Int

/-- `AnnotationEvent.__init__(etype, annotation, pos)` with an explicit
position. -/
def AnnotationEvent.make (etype : Int) (a : BaseSchemeAnnotation) (pos : Int) :
    AnnotationEvent :=
  ⟨etype, a, pos⟩

/-- `AnnotationEvent(etype, annotation)` with the position omitted
(default `pos=-1`). -/
def AnnotationEvent.makeDefault (etype : Int) (a : BaseSchemeAnnotation) :
    AnnotationEvent :=
  AnnotationEvent.make etype a (-1)

/-- `WorkflowEnvChanged`: the constructor signature is
`__init__(self, name, newValue, oldValue)`; it calls
`super().__init__(WorkflowEvent.WorkflowEnvironmentChange)` and then stores
`self.__name = name`, `self.__oldValue = oldValue`,
`self.__newValue = newValue`. -/
structure WorkflowEnvChanged where
  etype : Int
  name : String
  oldValue : Value
  newValue : Value

/-- `WorkflowEnvChanged(name, newValue, oldValue)`: note the argument
order — `newValue` is the second constructor argument, `oldValue` the
third — and the etype is fixed to `WorkflowEvent.WorkflowEnvironmentChange`. -/
def WorkflowEnvChanged.make (name : String) (newValue : Value) (oldValue : Value) :
    WorkflowEnvChanged :=
  ⟨WorkflowEvent.WorkflowEnvironmentChange, name, oldValue, newValue⟩

/-- Method-call model of `NodeEvent.node()`: the body is a bare
`return self.__node` with no assignment, so the post-state is the
receiver unchanged. -/
def NodeEvent.nodeM (e : NodeEvent) : SchemeNode × NodeEvent :=
  (e.node, e)

/-- Method-call model of `NodeEvent.pos()`: bare `return self.__pos`. -/
def NodeEvent.posM (e : NodeEvent) : Int × NodeEvent :=
  (e.pos, e)

/-- Method-call model of `LinkEvent.link()`: bare `return self.__link`. -/
def LinkEvent.linkM (e : LinkEvent) : SchemeLink × LinkEvent :=
  (e.link, e)

/-- Method-call model of `LinkEvent.pos()`: bare `return self.__pos`. -/
def LinkEvent.posM (e : LinkEvent) : Int × LinkEvent :=
  (e.pos, e)

/-- Method-call model of `AnnotationEvent.annotation()`: bare
`return self.__annotation`. -/
def AnnotationEvent.annotationM (e : AnnotationEvent) :
    BaseSchemeAnnotation × AnnotationEvent :=
  ( AnnotationEvent.annotation e, e)

/-- Method-call model of `AnnotationEvent.pos()`: bare `return self.__pos`. -/
def AnnotationEvent.posM (e : AnnotationEvent) : Int × AnnotationEvent :=
  (e.pos, e)

/-- Method-call model of `WorkflowEnvChanged.name()`: bare
`return self.__name`. -/
def WorkflowEnvChanged.nameM (e : WorkflowEnvChanged) : String × WorkflowEnvChanged :=
  (e.name, e)

/-- Method-call model of `WorkflowEnvChanged.oldValue()`: bare
`return self.__oldValue`. -/
def WorkflowEnvChanged.oldValueM (e : WorkflowEnvChanged) : Value × WorkflowEnvChanged :=
  (e.oldValue, e)

/-- Method-call model of `WorkflowEnvChanged.newValue()`: bare
`return self.__newValue`. -/
def WorkflowEnvChanged.newValueM (e : WorkflowEnvChanged) : Value × WorkflowEnvChanged :=
  (e.newValue, e)

/-- C1: for every NodeEvent, LinkEvent or AnnotationEvent constructed with a
position argument p, the pos accessor returns exactly p; when the position
argument is omitted at construction, pos returns -1. -/
theorem pos_returns_construction_value :
    ∀ (t : Int) (n : SchemeNode) (l : SchemeLink) (a : BaseSchemeAnnotation) (p : Int),
      (NodeEvent.make t n p).pos = p ∧ (NodeEvent.makeDefault t n).pos = -1 ∧
      (LinkEvent.make t l p).pos = p ∧ (LinkEvent.makeDefault t l).pos = -1 ∧
      (AnnotationEvent.make t a p).pos = p ∧ (AnnotationEvent.makeDefault t a).pos = -1 :=
  fun _ _ _ _ _ => ⟨rfl, rfl, rfl, rfl, rfl, rfl⟩

/-- C2: the node, link and annotation accessors return the exact entity
reference passed at construction, with no copying (references are opaque,
so identity is equality of the stored reference). -/
theorem entity_accessor_identity :
    ∀ (t : Int) (n : SchemeNode) (l : SchemeLink) (a : BaseSchemeAnnotation) (p : Int),
      (NodeEvent.make t n p).node = n ∧
      (LinkEvent.make t l p).link = l ∧
      AnnotationEvent.annotation (AnnotationEvent.make t a p) = a :=
  fun _ _ _ _ _ => ⟨rfl, rfl, rfl⟩

/-- C3: for WorkflowEnvChanged constructed as make name newValue oldValue,
the name accessor returns the name argument, oldValue returns the third
constructor argument and newValue returns the second constructor argument. -/
theorem workflowEnvChanged_accessors :
    ∀ (nm : String) (nv ov : Value),
      (WorkflowEnvChanged.make nm nv ov).name = nm ∧
      (WorkflowEnvChanged.make nm nv ov).oldValue = ov ∧
      (WorkflowEnvChanged.make nm nv ov).newValue = nv :=
  fun _ _ _ => ⟨rfl, rfl, rfl⟩

/-- C4: every WorkflowEnvChanged, regardless of the constructor arguments,
carries exactly the fixed WorkflowEnvironmentChange kind. -/
theorem workflowEnvChanged_kind_fixed :
    ∀ (nm : String) (nv ov : Value),
      (WorkflowEnvChanged.make nm nv ov).etype = WorkflowEvent.WorkflowEnvironmentChange :=
  fun _ _ _ => rfl

/-- C5 counterexample: the class-level kind attributes of WorkflowEvent are
not pairwise distinct as a family of named values, because
WorkflowResourceChange is bound to the same value as
WorkflowEnvironmentChange. -/
theorem namedKindValues_not_pairwise_distinct :
    WorkflowEvent.WorkflowResourceChange = WorkflowEvent.WorkflowEnvironmentChange ∧
    ¬ namedKindValues.Nodup := by decide

/-- C5 amended: the 24 kinds actually registered by the class body are
pairwise distinct, and the registry is append-only: any registration
performed after the class body yields a value distinct from all of them,
so the attribute values are stable within one process lifetime. -/
theorem registeredKinds_distinct_and_stable :
    registeredKindValues.Nodup ∧
    ∀ n : Nat, regStateFinal ≤ n → (registerEventType n).fst ∉ registeredKindValues := by
  refine ⟨by decide, ?_⟩
  intro n h hmem
  have hfin : regStateFinal = 24 := by decide
  have hge : ∀ x ∈ registeredKindValues, (65512 : Int) ≤ x := by decide
  have hx := hge _ hmem
  have hf : (registerEventType n).fst = 65535 - (n : Int) := rfl
  rw [hf] at hx
  rw [hfin] at h
  omega

/-- Witness for the amended C5 theorem at the concrete post-class-body
state 24. -/
theorem registeredKinds_stable_witness :
    regStateFinal ≤ 24 ∧ (registerEventType 24).fst ∉ registeredKindValues :=
  ⟨by decide, registeredKinds_distinct_and_stable.2 24 (by decide)⟩

/-- C6 counterexample: the constructors validate nothing, so a constructed
NodeEvent can store a position that is neither a non-negative index nor -1;
here the stored position is -5. -/
theorem pos_invariant_counterexample :
    (NodeEvent.make WorkflowEvent.NodeAdded ⟨0⟩ (-5)).pos = -5 ∧
    ¬ ((0 : Int) ≤ (NodeEvent.make WorkflowEvent.NodeAdded ⟨0⟩ (-5)).pos ∨
       (NodeEvent.make WorkflowEvent.NodeAdded ⟨0⟩ (-5)).pos = -1) := by decide

/-- C6 amended: the carrier classes store exactly the position passed at
construction, unvalidated, and store -1 when the position is omitted; the
valid-index-or-minus-one invariant is not enforced by the classes and holds
only when callers pass such values. -/
theorem pos_stored_unvalidated :
    ∀ (t p : Int) (n : SchemeNode) (l : SchemeLink) (a : BaseSchemeAnnotation),
      (NodeEvent.make t n p).pos = p ∧
      (LinkEvent.make t l p).pos = p ∧
      (AnnotationEvent.make t a p).pos = p ∧
      (NodeEvent.makeDefault t n).pos = -1 ∧
      (LinkEvent.makeDefault t l).pos = -1 ∧
      (AnnotationEvent.makeDefault t a).pos = -1 :=
  fun _ _ _ _ _ => ⟨rfl, rfl, rfl, rfl, rfl, rfl⟩

/-- C7: for every kind tag t, including tags outside the documented subset
for each carrier class, construction succeeds and stores t unmodified as
the event kind, with no semantic validation of the tag or the index. -/
theorem etype_stored_unmodified :
    ∀ (t p : Int) (n : SchemeNode) (l : SchemeLink) (a : BaseSchemeAnnotation),
      (NodeEvent.make t n p).etype = t ∧
      (LinkEvent.make t l p).etype = t ∧
      (AnnotationEvent.make t a p).etype = t :=
  fun _ _ _ _ _ => ⟨rfl, rfl, rfl⟩

/-- C8: events are immutable once constructed: every accessor method,
modelled as a state transformer returning the value and the post-state,
leaves the event unchanged; no method of these classes mutates an event. -/
theorem accessors_do_not_mutate :
    ∀ (eN : NodeEvent) (eL : LinkEvent) (eA : AnnotationEvent) (eW : WorkflowEnvChanged),
      (NodeEvent.nodeM eN).snd = eN ∧ (NodeEvent.posM eN).snd = eN ∧
      (LinkEvent.linkM eL).snd = eL ∧ (LinkEvent.posM eL).snd = eL ∧
      (AnnotationEvent.annotationM eA).snd = eA ∧
      (AnnotationEvent.posM eA).snd = eA ∧
      (WorkflowEnvChanged.nameM eW).snd = eW ∧
      (WorkflowEnvChanged.oldValueM eW).snd = eW ∧
      (WorkflowEnvChanged.newValueM eW).snd = eW :=
  fun _ _ _ _ => ⟨rfl, rfl, rfl, rfl, rfl, rfl, rfl, rfl, rfl⟩

/-- C9: construction never fails and accessors never fail: all constructors
are total pure data assignment for every argument, including a
WorkflowEnvChanged whose old and new values coincide or are of unrelated
payload types, and every accessor returns the stored state. -/
theorem constructors_and_accessors_total :
    ∀ (nm : String) (v w : Value) (t p : Int) (n : SchemeNode) (l : SchemeLink)
      (a : BaseSchemeAnnotation),
      (WorkflowEnvChanged.make nm v w).name = nm ∧
      (WorkflowEnvChanged.make nm v w).oldValue = w ∧
      (WorkflowEnvChanged.make nm v w).newValue = v ∧
      (WorkflowEnvChanged.make nm v v).oldValue = (WorkflowEnvChanged.make nm v v).newValue ∧
      (NodeEvent.make t n p).node = n ∧ (NodeEvent.make t n p).pos = p ∧
      (LinkEvent.make t l p).link = l ∧ (LinkEvent.make t l p).pos = p ∧
      AnnotationEvent.annotation (AnnotationEvent.make t a p) = a ∧
      (AnnotationEvent.make t a p).pos = p :=
  fun _ _ _ _ _ _ _ _ => ⟨rfl, rfl, rfl, rfl, rfl, rfl, rfl, rfl, rfl, rfl⟩

/-- C10: WorkflowResourceChange is an alias bound to the very same kind
value as WorkflowEnvironmentChange, not a separate registration: the class
body performs 24 registrations for 25 attribute names, and the named kind
attributes are therefore not all pairwise distinct. -/
theorem workflowResourceChange_is_alias :
    WorkflowEvent.WorkflowResourceChange = WorkflowEvent.WorkflowEnvironmentChange ∧
    regStateFinal = 24 ∧
    namedKindValues.length = 25 ∧
    registeredKindValues.length = 24 ∧
    ¬ namedKindValues.Nodup := by decide
